import Mathlib

/-!
# Verification of the frame-presentation core of the `vulkan-renderer` repository

This file shallowly embeds the frame presentation pipeline of
`src/HelloTriangle.cpp`: the swapchain-parameter selection helpers
(`chooseSwapSurfaceFormat`, `chooseSwapPresentMode`, `chooseSwapExtent`, the
image-count computation in `createSwapChain`), command-buffer recording
(`recordCommandBuffer`), swapchain recreation (`recreateSwapChain` with its
minimize-wait loop), and one iteration of the frame loop (`drawFrame`).

Machine integers are modelled as `Nat`; driver results (`VkResult`) are
modelled as small inductive types; the asynchronous driver is modelled as an
environment that fixes the result of each driver call in the iteration; the
observable behaviour of an iteration is an event trace plus an outcome.
-/

/-- A 2D extent (`VkExtent2D`): width and height in pixels, `uint32_t` in the
source, modelled as `Nat`. -/
structure Extent where
  width : Nat
  height : Nat
deriving DecidableEq, Repr

/-- The sentinel value `std::numeric_limits<uint32_t>::max()` used by the
surface to mark `currentExtent` as undefined. -/
def UINT32_MAX : Nat := 2 ^ 32 - 1

/-- `VkSurfaceCapabilitiesKHR`, restricted to the fields the core reads. -/
structure SurfaceCaps where
  minImageCount : Nat
  maxImageCount : Nat
  currentExtent : Extent
  minImageExtent : Extent
  maxImageExtent : Extent
deriving DecidableEq, Repr

/-- `std::clamp(v, lo, hi)` as used in `chooseSwapExtent`:
`v < lo` gives `lo`, `hi < v` gives `hi`, otherwise `v`. -/
def cppClamp (v lo hi : Nat) : Nat :=
  if v < lo then lo else if hi < v then hi else v

/-- `chooseSwapExtent` (HelloTriangle.cpp:331): if the surface's
`currentExtent.width` is not the `uint32_t` sentinel, return `currentExtent`
unchanged; otherwise clamp the window's framebuffer size componentwise into
the surface's min/max image extent.  The framebuffer size queried from the
window is passed in as `fbSize`. -/
def chooseSwapExtent (caps : SurfaceCaps) (fbSize : Extent) : Extent :=
  if caps.currentExtent.width ≠ UINT32_MAX then
    caps.currentExtent
  else
    { width := cppClamp fbSize.width caps.minImageExtent.width caps.maxImageExtent.width,
      height := cppClamp fbSize.height caps.minImageExtent.height caps.maxImageExtent.height }

/-- `VkSurfaceFormatKHR`: a (pixel format, color space) pair; the enum values
are modelled as their numeric codes. -/
structure SurfaceFormat where
  format : Nat
  colorSpace : Nat
deriving DecidableEq, Repr

/-- Numeric code of `VK_FORMAT_B8G8R8A8_SRGB` in the Vulkan headers. -/
def VK_FORMAT_B8G8R8A8_SRGB : Nat := 50

/-- Numeric code of `VK_COLOR_SPACE_SRGB_NONLINEAR_KHR` in the Vulkan headers. -/
def VK_COLOR_SPACE_SRGB_NONLINEAR_KHR : Nat := 0

/-- The preferred surface format of `chooseSwapSurfaceFormat`:
`VK_FORMAT_B8G8R8A8_SRGB` with `VK_COLOR_SPACE_SRGB_NONLINEAR_KHR`. -/
def preferredSurfaceFormat : SurfaceFormat :=
  { format := VK_FORMAT_B8G8R8A8_SRGB, colorSpace := VK_COLOR_SPACE_SRGB_NONLINEAR_KHR }

/-- The scanning loop of `chooseSwapSurfaceFormat`: the first listed format
equal to the preferred format/color-space pair, if any. -/
def findPreferredFormat : List SurfaceFormat → Option SurfaceFormat
  | [] => none
  | f :: rest =>
    if f.format = VK_FORMAT_B8G8R8A8_SRGB ∧ f.colorSpace = VK_COLOR_SPACE_SRGB_NONLINEAR_KHR then
      some f
    else
      findPreferredFormat rest

/-- `chooseSwapSurfaceFormat` (HelloTriangle.cpp:294): scan the available
formats and return the first one equal to the preferred format/color-space
pair; if none matches, return the first listed format
(`availableFormats[0]`).  The source indexes an empty vector if the list is
empty (undefined behaviour, unreachable because device selection requires a
non-empty format list); this is modelled by `Option`. -/
def chooseSwapSurfaceFormat (availableFormats : List SurfaceFormat) : Option SurfaceFormat :=
  match findPreferredFormat availableFormats with
  | some f => some f
  | none => availableFormats.head?

/-- `VkPresentModeKHR`, restricted to the four core modes. -/
inductive PresentMode where
  | immediate
  | mailbox
  | fifo
  | fifoRelaxed
deriving DecidableEq, Repr

/-- `chooseSwapPresentMode` (HelloTriangle.cpp:320): return
`VK_PRESENT_MODE_MAILBOX_KHR` if it is listed, else
`VK_PRESENT_MODE_FIFO_KHR`. -/
def chooseSwapPresentMode : List PresentMode → PresentMode
  | [] => PresentMode.fifo
  | m :: rest =>
    if m = PresentMode.mailbox then m else chooseSwapPresentMode rest

/-- The swapchain image-count computation of `createSwapChain`
(HelloTriangle.cpp:946): start from `minImageCount`, add one — a `uint32_t`
increment, so the sum wraps modulo `2^32` — and cap at `maxImageCount` when
that is positive (`0` means unbounded). -/
def requestedImageCount (minCount maxCount : Nat) : Nat :=
  let imageCount := (minCount + 1) % 2 ^ 32
  if 0 < maxCount ∧ maxCount < imageCount then maxCount else imageCount

/-- A clear color: the four `float32` components of `VkClearColorValue`.
The two float literals appearing in the source (`0.0f`, `1.0f`) are exactly
representable, so the components are modelled as rationals. -/
structure ClearColor where
  r : ℚ
  g : ℚ
  b : ℚ
  a : ℚ
deriving DecidableEq, Repr

/-- The fixed clear constant of `recordCommandBuffer`
(HelloTriangle.cpp:557): `VkClearValue clearColor = {{{0.0f, 0.0f, 0.0f}}}`.
The aggregate initializer lists three of the four `float32` components; the
fourth (alpha) is value-initialized to `0.0f`. -/
def clearColor : ClearColor := { r := 0, g := 0, b := 0, a := 0 }

/-- Modelled from the spec: the "fixed constant opaque black" clear color
named in §4.3, i.e. black with alpha one. -/
def specOpaqueBlack : ClearColor := { r := 0, g := 0, b := 0, a := 1 }

/-- One recorded command-buffer command, as issued by `recordCommandBuffer`.
`draw` carries the arguments of `vkCmdDraw` plus an `indexed` flag which is
`true` only for `vkCmdDrawIndexed` (never issued by this program). -/
inductive Cmd where
  | beginBuffer
  | beginRenderPass (framebufferIndex : Nat) (renderArea : Extent) (clear : ClearColor)
  | bindGraphicsPipeline
  | setViewport (width height : Nat)
  | setScissor (extent : Extent)
  | draw (vertexCount instanceCount firstVertex firstInstance : Nat) (indexed : Bool)
  | endRenderPass
  | endBuffer
deriving DecidableEq, Repr

/-- `recordCommandBuffer` (HelloTriangle.cpp:528): the straight-line
sequence of commands recorded into the buffer for swapchain image
`imageIndex`, with `extent` the current `swapChainExtent`.  The render area
has offset `(0,0)` and the full extent; the viewport and scissor are set to
the full extent; the one draw call is `vkCmdDraw(buffer, 3, 1, 0, 0)`. -/
def recordCommandBuffer (extent : Extent) (imageIndex : Nat) : List Cmd :=
  [Cmd.beginBuffer,
   Cmd.beginRenderPass imageIndex extent clearColor,
   Cmd.bindGraphicsPipeline,
   Cmd.setViewport extent.width extent.height,
   Cmd.setScissor extent,
   Cmd.draw 3 1 0 0 false,
   Cmd.endRenderPass,
   Cmd.endBuffer]

/-- `MAX_FRAMES_IN_FLIGHT` (HelloTriangle.cpp:72). -/
def MAX_FRAMES_IN_FLIGHT : Nat := 2

/-- The mutable members of the `HelloTriangle` class that the frame loop
touches.  Opaque Vulkan handles are modelled as `Nat`, drawn from the
`nextHandle` counter so that newly created objects are distinguishable from
old ones.  `fenceSignaled` tracks the signaled state of each slot's fence
(`true` = signaled); a successful submission is modelled as eventually
signaling its fence, so the flag is set at submission. -/
structure RenderState where
  device : Nat
  graphicsQueue : Nat
  presentQueue : Nat
  renderPass : Nat
  pipelineLayout : Nat
  graphicsPipeline : Nat
  commandPool : Nat
  swapChain : Nat
  swapChainImages : List Nat
  swapChainImageFormat : Nat
  swapChainExtent : Extent
  swapChainImageViews : List Nat
  swapChainFramebuffers : List Nat
  imageAvailableSemaphores : List Nat
  renderFinishedSemaphores : List Nat
  inFlightFences : List Nat
  fenceSignaled : List Bool
  commandBuffers : List Nat
  currentFrame : Nat
  framebufferResized : Bool
  nextHandle : Nat
deriving DecidableEq, Repr

/-- `createSyncObjects` (HelloTriangle.cpp:464): resize the three per-slot
vectors to `MAX_FRAMES_IN_FLIGHT` and create one image-available semaphore,
one render-finished semaphore and one fence per slot; the fences are
created with `VK_FENCE_CREATE_SIGNALED_BIT`, i.e. pre-signaled. -/
def createSyncObjects (s : RenderState) : RenderState :=
  let h := s.nextHandle
  { s with
    imageAvailableSemaphores := (List.range MAX_FRAMES_IN_FLIGHT).map (fun i => h + 3 * i),
    renderFinishedSemaphores := (List.range MAX_FRAMES_IN_FLIGHT).map (fun i => h + 3 * i + 1),
    inFlightFences := (List.range MAX_FRAMES_IN_FLIGHT).map (fun i => h + 3 * i + 2),
    fenceSignaled := List.replicate MAX_FRAMES_IN_FLIGHT true,
    nextHandle := h + 3 * MAX_FRAMES_IN_FLIGHT }

/-- `createCommandBuffers` (HelloTriangle.cpp:509): resize the command
buffer vector to `MAX_FRAMES_IN_FLIGHT` and allocate that many primary
command buffers from the pool. -/
def createCommandBuffers (s : RenderState) : RenderState :=
  let h := s.nextHandle
  { s with
    commandBuffers := (List.range MAX_FRAMES_IN_FLIGHT).map (fun i => h + i),
    nextHandle := h + MAX_FRAMES_IN_FLIGHT }

/-- The inputs `createSwapChain` queries from the physical device, surface
and window: the surface capabilities, the supported surface formats and
present modes, and the window's framebuffer size (read inside
`chooseSwapExtent`). -/
structure BuildEnv where
  caps : SurfaceCaps
  formats : List SurfaceFormat
  presentModes : List PresentMode
  fbSize : Extent
deriving DecidableEq, Repr

/-- `createSwapChain` (HelloTriangle.cpp:939): choose the surface format,
present mode and extent, compute the requested image count, create the
swapchain and fetch its images, and store the chosen format and extent in
the member variables.  `none` models the undefined behaviour of
`chooseSwapSurfaceFormat` on an empty format list; driver-side creation
failure (a fatal construction error) is outside the claims and not
modelled.  The driver is modelled as returning exactly the requested number
of images, with fresh handles. -/
def createSwapChain (env : BuildEnv) (s : RenderState) : Option RenderState :=
  match chooseSwapSurfaceFormat env.formats with
  | none => none
  | some surfaceFormat =>
    let extent := chooseSwapExtent env.caps env.fbSize
    let imageCount := requestedImageCount env.caps.minImageCount env.caps.maxImageCount
    let h := s.nextHandle
    some { s with
      swapChain := h,
      swapChainImages := (List.range imageCount).map (fun i => h + 1 + i),
      swapChainImageFormat := surfaceFormat.format,
      swapChainExtent := extent,
      nextHandle := h + 1 + imageCount }

/-- `createImageViews` (HelloTriangle.cpp:905): resize the view vector to
the number of swapchain images and create one view per image. -/
def createImageViews (s : RenderState) : RenderState :=
  let h := s.nextHandle
  let n := s.swapChainImages.length
  { s with
    swapChainImageViews := (List.range n).map (fun i => h + i),
    nextHandle := h + n }

/-- `createFramebuffers` (HelloTriangle.cpp:604): resize the framebuffer
vector to the number of image views and create one framebuffer per view,
each bound to the existing render pass with the current extent. -/
def createFramebuffers (s : RenderState) : RenderState :=
  let h := s.nextHandle
  let n := s.swapChainImageViews.length
  { s with
    swapChainFramebuffers := (List.range n).map (fun i => h + i),
    nextHandle := h + n }

/-- One observable action of a frame-loop iteration or of swapchain
recreation, in program order. -/
inductive Event where
  | waitFence (slot : Nat)
  | acquireImage (slot : Nat)
  | resetFence (slot : Nat)
  | resetCommandBuffer (slot : Nat)
  | recordBuffer (slot : Nat) (imageIndex : Nat)
  | submit (slot : Nat)
  | present (imageIndex : Nat)
  | checkFramebufferSize (size : Extent)
  | queryWindowSize (size : Extent)
  | waitEvents
  | deviceWaitIdle
  | destroyFramebuffers
  | destroyImageViews
  | destroySwapchain
  | createdSwapChain
  | createdImageViews
  | createdFramebuffers
  | advanceCursor
deriving DecidableEq, Repr

/-- The minimization loop of `recreateSwapChain` (HelloTriangle.cpp:1405):
starting from the framebuffer size read on entry, loop while either
component is zero, each iteration reading `glfwGetWindowSize` and then
calling `glfwWaitEvents`.  `wins` is the stream of window-size observations
the loop would read, one per iteration; the result is the list of emitted
events and `true` if the loop exited, `false` if the observation stream was
exhausted while a component was still zero (i.e. the call blocks). -/
def minimizeWait (size : Extent) (wins : List Extent) : List Event × Bool :=
  if size.width = 0 ∨ size.height = 0 then
    match wins with
    | [] => ([], false)
    | w :: rest =>
      let r := minimizeWait w rest
      (Event.queryWindowSize w :: Event.waitEvents :: r.1, r.2)
  else
    ([], true)

/-- The environment of one `recreateSwapChain` call: the framebuffer size
read on entry, the stream of window-size observations available to the
minimization loop, and the build inputs for the new swapchain. -/
structure RecreateEnv where
  fbSize : Extent
  winSizes : List Extent
  build : BuildEnv
deriving DecidableEq, Repr

/-- `cleanupSwapChain` (HelloTriangle.cpp:1388): destroy the framebuffers,
then the image views, then the swapchain.  Destruction invalidates the
handles but assigns no member, so the state is unchanged; only the
destruction events are observable. -/
def cleanupSwapChain : List Event :=
  [Event.destroyFramebuffers, Event.destroyImageViews, Event.destroySwapchain]

/-- `recreateSwapChain` (HelloTriangle.cpp:1403): run the minimization
loop; once it exits, wait for the device to be idle, tear down the old
swapchain (`cleanupSwapChain`) and rebuild (`createSwapChain`,
`createImageViews`, `createFramebuffers`).  Returns the emitted events and
the new state, `none` when the call blocks in the minimization loop (or
when `createSwapChain` hits its empty-format case). -/
def recreateSwapChain (env : RecreateEnv) (s : RenderState) : List Event × Option RenderState :=
  let r := minimizeWait env.fbSize env.winSizes
  let evs := Event.checkFramebufferSize env.fbSize :: r.1
  if r.2 then
    match createSwapChain env.build s with
    | none => (evs ++ Event.deviceWaitIdle :: cleanupSwapChain, none)
    | some s1 =>
      (evs ++ Event.deviceWaitIdle :: cleanupSwapChain ++
        [Event.createdSwapChain, Event.createdImageViews, Event.createdFramebuffers],
       some (createFramebuffers (createImageViews s1)))
  else
    (evs, none)

/-- The result of `vkAcquireNextImageKHR` as examined by `drawFrame`:
success or suboptimal carry the acquired image index; any result other
than success, suboptimal or out-of-date is fatal. -/
inductive AcquireResult where
  | success (imageIndex : Nat)
  | suboptimal (imageIndex : Nat)
  | outOfDate
  | errorOther
deriving DecidableEq, Repr

/-- The result of `vkQueuePresentKHR` as examined by `drawFrame`. -/
inductive PresentResult where
  | success
  | suboptimal
  | outOfDate
  | errorOther
deriving DecidableEq, Repr

/-- The driver/window environment of one `drawFrame` iteration: the result
of the acquire call, whether `vkQueueSubmit` succeeds, the result of the
present call, and the environment of a `recreateSwapChain` call should one
happen. -/
structure DrawEnv where
  acquire : AcquireResult
  submitOk : Bool
  presentRes : PresentResult
  recreate : RecreateEnv
deriving DecidableEq, Repr

/-- How one `drawFrame` iteration ends: normally with a new state, by
throwing `std::runtime_error` with a message, or never (blocked inside
`recreateSwapChain`, or the unreachable empty-format case). -/
inductive DrawOutcome where
  | ok (s : RenderState)
  | fatal (msg : String)
  | stuck
deriving DecidableEq, Repr

/-- The part of `drawFrame` from the fence reset onward
(HelloTriangle.cpp:1328), reached when acquisition returned success or
suboptimal with image `imageIndex`: reset slot `i`'s fence, reset and
re-record its command buffer, submit it (fatal if the driver rejects the
submission), present the acquired image, and then either recreate the
swapchain (when present reports out-of-date or suboptimal, or the resize
flag is set), throw (present failed otherwise), or nothing; in every
non-throwing, non-blocking case fall through to the cursor advance
`currentFrame = (currentFrame + 1) % MAX_FRAMES_IN_FLIGHT`. -/
def drawFrameSubmit (env : DrawEnv) (s : RenderState) (i imageIndex : Nat)
    (evs : List Event) : List Event × DrawOutcome :=
  let s1 := { s with fenceSignaled := s.fenceSignaled.set i false }
  let evs1 := evs ++ [Event.resetFence i, Event.resetCommandBuffer i,
                      Event.recordBuffer i imageIndex, Event.submit i]
  if env.submitOk then
    let s2 := { s1 with fenceSignaled := s1.fenceSignaled.set i true }
    let evs2 := evs1 ++ [Event.present imageIndex]
    if env.presentRes = PresentResult.outOfDate ∨ env.presentRes = PresentResult.suboptimal ∨
        s2.framebufferResized then
      let s3 := { s2 with framebufferResized := false }
      let r := recreateSwapChain env.recreate s3
      match r.2 with
      | some s4 =>
        (evs2 ++ r.1 ++ [Event.advanceCursor],
         DrawOutcome.ok { s4 with currentFrame := (s4.currentFrame + 1) % MAX_FRAMES_IN_FLIGHT })
      | none => (evs2 ++ r.1, DrawOutcome.stuck)
    else if env.presentRes ≠ PresentResult.success then
      (evs2, DrawOutcome.fatal "failed to present swap chain image!")
    else
      (evs2 ++ [Event.advanceCursor],
       DrawOutcome.ok { s2 with currentFrame := (s2.currentFrame + 1) % MAX_FRAMES_IN_FLIGHT })
  else
    (evs1, DrawOutcome.fatal "failed to submit draw command buffer!")

/-- One iteration of `drawFrame` (HelloTriangle.cpp:1312): wait on the
current slot's fence, acquire an image; on out-of-date recreate the
swapchain and return (no fence reset, no submission, no cursor advance);
on any other failure throw; otherwise continue with `drawFrameSubmit`. -/
def drawFrame (env : DrawEnv) (s : RenderState) : List Event × DrawOutcome :=
  let i := s.currentFrame
  let evs := [Event.waitFence i, Event.acquireImage i]
  match env.acquire with
  | AcquireResult.outOfDate =>
    let r := recreateSwapChain env.recreate s
    (evs ++ r.1,
     match r.2 with
     | some s1 => DrawOutcome.ok s1
     | none => DrawOutcome.stuck)
  | AcquireResult.errorOther =>
    (evs, DrawOutcome.fatal "failed to acquire swap chain image!")
  | AcquireResult.success imageIndex => drawFrameSubmit env s i imageIndex evs
  | AcquireResult.suboptimal imageIndex => drawFrameSubmit env s i imageIndex evs

/-- Classifier for `submit` events. -/
def isSubmitEvent : Event → Bool
  | Event.submit _ => true
  | _ => false

/-- Classifier for `resetFence` events. -/
def isResetFenceEvent : Event → Bool
  | Event.resetFence _ => true
  | _ => false

/-- Classifier for `present` events. -/
def isPresentEvent : Event → Bool
  | Event.present _ => true
  | _ => false

/-- Classifier for the framebuffer-size query that opens `recreateSwapChain`. -/
def isCheckFbEvent : Event → Bool
  | Event.checkFramebufferSize _ => true
  | _ => false

/-- Classifier for the events of the minimization loop (window-size query
and `glfwWaitEvents`). -/
def isWinLoopEvent : Event → Bool
  | Event.queryWindowSize _ => true
  | Event.waitEvents => true
  | _ => false

/-- Whether a trace contains a queue submission. -/
def hasSubmitEvent (tr : List Event) : Bool := tr.any isSubmitEvent

/-- Whether a trace contains a fence reset. -/
def hasResetFenceEvent (tr : List Event) : Bool := tr.any isResetFenceEvent

/-- Whether a trace contains a present call. -/
def hasPresentEvent (tr : List Event) : Bool := tr.any isPresentEvent

/-- Whether a trace enters `recreateSwapChain` (whose first action is the
framebuffer-size query). -/
def entersRecreate (tr : List Event) : Bool := tr.any isCheckFbEvent

/-- Classifier for the swapchain-creation step of a rebuild. -/
def isCreatedSwapChainEvent : Event → Bool
  | Event.createdSwapChain => true
  | _ => false

/-- Classifier for `vkDeviceWaitIdle`. -/
def isDeviceWaitIdleEvent : Event → Bool
  | Event.deviceWaitIdle => true
  | _ => false

/-- Classifier for the cursor advance. -/
def isAdvanceEvent : Event → Bool
  | Event.advanceCursor => true
  | _ => false

/-- Whether a trace contains the swapchain-creation step of a rebuild. -/
def hasCreatedSwapChain (tr : List Event) : Bool := tr.any isCreatedSwapChainEvent

/-- Whether a trace contains `vkDeviceWaitIdle`. -/
def hasDeviceWaitIdle (tr : List Event) : Bool := tr.any isDeviceWaitIdleEvent

/-- Whether a trace contains the cursor advance. -/
def hasAdvanceEvent (tr : List Event) : Bool := tr.any isAdvanceEvent

/-- The framebuffer sizes observed in a trace. -/
def fbObservations (tr : List Event) : List Extent :=
  tr.filterMap fun e =>
    match e with
    | Event.checkFramebufferSize sz => some sz
    | _ => none

/-- The window sizes observed in a trace. -/
def winObservations (tr : List Event) : List Extent :=
  tr.filterMap fun e =>
    match e with
    | Event.queryWindowSize sz => some sz
    | _ => none

/-- Whether both components of an extent are non-zero (the exit condition
of the minimization loop). -/
def nonzeroExtent (e : Extent) : Bool := e.width != 0 && e.height != 0

/-- The suffix of a trace from its first `deviceWaitIdle` on (empty if
none). -/
def afterIdle (tr : List Event) : List Event :=
  tr.dropWhile (fun e => !isDeviceWaitIdleEvent e)

/-- The cursor of the resulting state, when the iteration ended normally. -/
def outcomeCursor : DrawOutcome → Option Nat
  | DrawOutcome.ok s => some s.currentFrame
  | _ => none

/-- The fence-signaled flags of the resulting state, when the iteration
ended normally. -/
def outcomeFences : DrawOutcome → Option (List Bool)
  | DrawOutcome.ok s => some s.fenceSignaled
  | _ => none

/-- Whether the iteration ended normally. -/
def outcomeIsOk : DrawOutcome → Bool
  | DrawOutcome.ok _ => true
  | _ => false

/-- Whether the iteration threw. -/
def outcomeIsFatal : DrawOutcome → Bool
  | DrawOutcome.fatal _ => true
  | _ => false

/-- Componentwise order on extents. -/
abbrev extentLE (a b : Extent) : Prop := a.width ≤ b.width ∧ a.height ≤ b.height

/-- Validity of a driver-reported `VkSurfaceCapabilitiesKHR`: the extent
range is non-empty, and when `currentExtent` is not the sentinel it lies in
that range (guaranteed by the Vulkan specification, which requires
`imageExtent` to equal `currentExtent` when the latter is defined and to
lie between `minImageExtent` and `maxImageExtent`). -/
abbrev capsWellFormed (caps : SurfaceCaps) : Prop :=
  extentLE caps.minImageExtent caps.maxImageExtent ∧
  (caps.currentExtent.width ≠ UINT32_MAX →
    extentLE caps.minImageExtent caps.currentExtent ∧
    extentLE caps.currentExtent caps.maxImageExtent)

/-- The per-slot invariant of the frame loop: the cursor is a valid slot
index and all per-slot arrays have length `MAX_FRAMES_IN_FLIGHT`. -/
def slotInvariant (s : RenderState) : Prop :=
  s.currentFrame < MAX_FRAMES_IN_FLIGHT ∧
  s.imageAvailableSemaphores.length = MAX_FRAMES_IN_FLIGHT ∧
  s.renderFinishedSemaphores.length = MAX_FRAMES_IN_FLIGHT ∧
  s.inFlightFences.length = MAX_FRAMES_IN_FLIGHT ∧
  s.fenceSignaled.length = MAX_FRAMES_IN_FLIGHT ∧
  s.commandBuffers.length = MAX_FRAMES_IN_FLIGHT

instance (s : RenderState) : Decidable (slotInvariant s) := by
  unfold slotInvariant
  infer_instance

/-- `slotInvariant` lifted through a `drawFrame` outcome: a thrown or
blocked iteration produces no state to constrain. -/
def invariantOutcome : DrawOutcome → Prop
  | DrawOutcome.ok s => slotInvariant s
  | _ => True

/-- A concrete state as left by the initialization boilerplate before
`createSyncObjects`/`createCommandBuffers`: distinct handles for the
device-context objects and a first swapchain, the cursor at its member
initializer `0` and the resize flag at `false`. -/
def baseState : RenderState :=
  { device := 1, graphicsQueue := 2, presentQueue := 3, renderPass := 4,
    pipelineLayout := 5, graphicsPipeline := 6, commandPool := 7,
    swapChain := 8, swapChainImages := [9, 10, 11], swapChainImageFormat := 50,
    swapChainExtent := { width := 800, height := 600 },
    swapChainImageViews := [12, 13, 14], swapChainFramebuffers := [15, 16, 17],
    imageAvailableSemaphores := [], renderFinishedSemaphores := [],
    inFlightFences := [], fenceSignaled := [], commandBuffers := [],
    currentFrame := 0, framebufferResized := false, nextHandle := 18 }

/-- A fully initialized concrete state: `baseState` after the per-slot
allocations of `createSyncObjects` and `createCommandBuffers`. -/
def initState : RenderState := createCommandBuffers (createSyncObjects baseState)

/-- Concrete well-formed surface capabilities: `minImageCount = 2`,
unbounded maximum, defined current extent `800×600`. -/
def sampleCaps : SurfaceCaps :=
  { minImageCount := 2, maxImageCount := 0,
    currentExtent := { width := 800, height := 600 },
    minImageExtent := { width := 1, height := 1 },
    maxImageExtent := { width := 4096, height := 4096 } }

/-- Concrete build inputs with one (preferred) surface format. -/
def sampleBuild : BuildEnv :=
  { caps := sampleCaps,
    formats := [{ format := 50, colorSpace := 0 }],
    presentModes := [PresentMode.fifo],
    fbSize := { width := 800, height := 600 } }

/-- A recreate environment whose window is not minimized. -/
def sampleRecreate : RecreateEnv :=
  { fbSize := { width := 800, height := 600 }, winSizes := [], build := sampleBuild }

/-- A recreate environment entered while minimized (framebuffer size
`(0,0)`) whose first window-size observation is already non-zero. -/
def minimizedRecreate : RecreateEnv :=
  { fbSize := { width := 0, height := 0 },
    winSizes := [{ width := 800, height := 600 }],
    build := sampleBuild }

/-- A recreate environment entered while minimized that stays minimized for
one window-size observation before becoming non-zero. -/
def minimizedTwoStepRecreate : RecreateEnv :=
  { fbSize := { width := 0, height := 0 },
    winSizes := [{ width := 0, height := 0 }, { width := 800, height := 600 }],
    build := sampleBuild }

/-- Iteration environment: acquisition succeeds, submission succeeds,
present reports out-of-date. -/
def presentOutOfDateEnv : DrawEnv :=
  { acquire := AcquireResult.success 0, submitOk := true,
    presentRes := PresentResult.outOfDate, recreate := sampleRecreate }

/-- Iteration environment: everything succeeds. -/
def cleanFrameEnv : DrawEnv :=
  { acquire := AcquireResult.success 0, submitOk := true,
    presentRes := PresentResult.success, recreate := sampleRecreate }

/-- Iteration environment: acquisition reports out-of-date. -/
def acquireOutOfDateEnv : DrawEnv :=
  { acquire := AcquireResult.outOfDate, submitOk := true,
    presentRes := PresentResult.success, recreate := sampleRecreate }

/-- Iteration environment: acquisition reports suboptimal, everything else
succeeds. -/
def acquireSuboptimalEnv : DrawEnv :=
  { acquire := AcquireResult.suboptimal 0, submitOk := true,
    presentRes := PresentResult.success, recreate := sampleRecreate }

/-- Iteration environment: acquisition reports suboptimal and present
reports out-of-date. -/
def acquireSuboptimalPresentOodEnv : DrawEnv :=
  { acquire := AcquireResult.suboptimal 0, submitOk := true,
    presentRes := PresentResult.outOfDate, recreate := sampleRecreate }

theorem nonzeroExtent_iff (e : Extent) :
    nonzeroExtent e = true ↔ (e.width ≠ 0 ∧ e.height ≠ 0) := by
  simp [nonzeroExtent]

theorem cppClamp_bounds (v lo hi : Nat) (h : lo ≤ hi) :
    lo ≤ cppClamp v lo hi ∧ cppClamp v lo hi ≤ hi := by
  unfold cppClamp
  split
  · omega
  · split <;> omega

theorem minimizeWait_events (wins : List Extent) :
    ∀ size, ∀ e ∈ (minimizeWait size wins).1, isWinLoopEvent e = true := by
  induction wins with
  | nil =>
    intro size e he
    unfold minimizeWait at he
    split at he <;> simp at he
  | cons w rest ih =>
    intro size e he
    unfold minimizeWait at he
    split at he
    · simp at he
      rcases he with rfl | rfl | hm
      · rfl
      · rfl
      · exact ih w e hm
    · simp at he

theorem minimizeWait_finished (wins : List Extent) :
    ∀ size, size.width = 0 ∨ size.height = 0 →
      (minimizeWait size wins).2 = wins.any nonzeroExtent := by
  induction wins with
  | nil =>
    intro size hz
    unfold minimizeWait
    rw [if_pos hz]
    simp
  | cons w rest ih =>
    intro size hz
    unfold minimizeWait
    rw [if_pos hz]
    simp only [List.any_cons]
    by_cases hw : w.width = 0 ∨ w.height = 0
    · have hnz : nonzeroExtent w = false := by
        rcases hw with h | h <;> simp [nonzeroExtent, h]
      rw [ih w hw] at *
      simp [hnz, ih w hw]
    · have h2 : minimizeWait w rest = ([], true) := by
        unfold minimizeWait
        rw [if_neg hw]
      have hnz : nonzeroExtent w = true := by
        push_neg at hw
        simp [nonzeroExtent, hw.1, hw.2]
      simp [h2, hnz]

theorem minimizeWait_cons_zero (size w : Extent) (rest : List Extent)
    (hz : size.width = 0 ∨ size.height = 0) :
    minimizeWait size (w :: rest) =
      (Event.queryWindowSize w :: Event.waitEvents :: (minimizeWait w rest).1,
       (minimizeWait w rest).2) := by
  simp only [minimizeWait]
  rw [if_pos hz]

theorem minimizeWait_observed (wins : List Extent) :
    ∀ size, size.width = 0 ∨ size.height = 0 → (minimizeWait size wins).2 = true →
      (winObservations (minimizeWait size wins).1).any nonzeroExtent = true := by
  induction wins with
  | nil =>
    intro size hz hfin
    unfold minimizeWait at hfin
    rw [if_pos hz] at hfin
    exact absurd hfin (by simp)
  | cons w rest ih =>
    intro size hz hfin
    rw [minimizeWait_cons_zero size w rest hz] at hfin ⊢
    simp only [winObservations, List.filterMap_cons]
    by_cases hw : w.width = 0 ∨ w.height = 0
    · have hrec := ih w hw hfin
      simp only [winObservations] at hrec
      simp [hrec]
    · have hnz : nonzeroExtent w = true := by
        push_neg at hw
        simp [nonzeroExtent, hw.1, hw.2]
      simp [hnz]

theorem dropWhile_eq_of_all {p : Event → Bool} (l1 l2 : List Event)
    (h : ∀ e ∈ l1, p e = true) : (l1 ++ l2).dropWhile p = l2.dropWhile p := by
  induction l1 with
  | nil => simp
  | cons x xs ih =>
    have hx : p x = true := h x (by simp)
    simp only [List.cons_append, List.dropWhile_cons, hx, if_true]
    exact ih (fun e he => h e (by simp [he]))

theorem createSwapChain_fields (env : BuildEnv) (s s1 : RenderState)
    (h : createSwapChain env s = some s1) :
    s1.device = s.device ∧ s1.graphicsQueue = s.graphicsQueue ∧
    s1.presentQueue = s.presentQueue ∧ s1.renderPass = s.renderPass ∧
    s1.pipelineLayout = s.pipelineLayout ∧ s1.graphicsPipeline = s.graphicsPipeline ∧
    s1.commandPool = s.commandPool ∧
    s1.imageAvailableSemaphores = s.imageAvailableSemaphores ∧
    s1.renderFinishedSemaphores = s.renderFinishedSemaphores ∧
    s1.inFlightFences = s.inFlightFences ∧ s1.fenceSignaled = s.fenceSignaled ∧
    s1.commandBuffers = s.commandBuffers ∧ s1.currentFrame = s.currentFrame ∧
    s1.framebufferResized = s.framebufferResized ∧
    s1.swapChain = s.nextHandle ∧
    s1.swapChainExtent = chooseSwapExtent env.caps env.fbSize ∧
    s1.swapChainImages.length =
      requestedImageCount env.caps.minImageCount env.caps.maxImageCount := by
  unfold createSwapChain at h
  cases hf : chooseSwapSurfaceFormat env.formats with
  | none => simp [hf] at h
  | some sf =>
    simp only [hf] at h
    simp only [Option.some.injEq] at h
    subst h
    simp

theorem recreateSwapChain_some (renv : RecreateEnv) (s s' : RenderState)
    (h : (recreateSwapChain renv s).2 = some s') :
    s'.device = s.device ∧ s'.graphicsQueue = s.graphicsQueue ∧
    s'.presentQueue = s.presentQueue ∧ s'.renderPass = s.renderPass ∧
    s'.pipelineLayout = s.pipelineLayout ∧ s'.graphicsPipeline = s.graphicsPipeline ∧
    s'.commandPool = s.commandPool ∧
    s'.imageAvailableSemaphores = s.imageAvailableSemaphores ∧
    s'.renderFinishedSemaphores = s.renderFinishedSemaphores ∧
    s'.inFlightFences = s.inFlightFences ∧ s'.fenceSignaled = s.fenceSignaled ∧
    s'.commandBuffers = s.commandBuffers ∧ s'.currentFrame = s.currentFrame ∧
    s'.framebufferResized = s.framebufferResized ∧
    s'.swapChain = s.nextHandle ∧
    s'.swapChainExtent = chooseSwapExtent renv.build.caps renv.build.fbSize ∧
    s'.swapChainImages.length =
      requestedImageCount renv.build.caps.minImageCount renv.build.caps.maxImageCount := by
  unfold recreateSwapChain at h
  by_cases hb : (minimizeWait renv.fbSize renv.winSizes).2
  · simp only [hb, if_true] at h
    cases hc : createSwapChain renv.build s with
    | none => simp [hc] at h
    | some s1 =>
      simp only [hc, Option.some.injEq] at h
      subst h
      simpa [createFramebuffers, createImageViews] using
        createSwapChain_fields renv.build s s1 hc
  · simp [hb] at h

theorem findPreferredFormat_mem (fmts : List SurfaceFormat)
    (h : preferredSurfaceFormat ∈ fmts) :
    findPreferredFormat fmts = some preferredSurfaceFormat := by
  induction fmts with
  | nil => simp at h
  | cons f rest ih =>
    unfold findPreferredFormat
    by_cases hf : f.format = VK_FORMAT_B8G8R8A8_SRGB ∧
        f.colorSpace = VK_COLOR_SPACE_SRGB_NONLINEAR_KHR
    · rw [if_pos hf]
      have hfp : f = preferredSurfaceFormat := by
        obtain ⟨h1, h2⟩ := hf
        cases f
        simp_all [preferredSurfaceFormat]
      rw [hfp]
    · rw [if_neg hf]
      rcases List.mem_cons.mp h with heq | hm
      · subst heq
        exact absurd ⟨rfl, rfl⟩ hf
      · exact ih hm

theorem findPreferredFormat_not_mem (fmts : List SurfaceFormat)
    (h : preferredSurfaceFormat ∉ fmts) :
    findPreferredFormat fmts = none := by
  induction fmts with
  | nil => rfl
  | cons f rest ih =>
    unfold findPreferredFormat
    have hf : ¬(f.format = VK_FORMAT_B8G8R8A8_SRGB ∧
        f.colorSpace = VK_COLOR_SPACE_SRGB_NONLINEAR_KHR) := by
      intro hc
      apply h
      have hfp : f = preferredSurfaceFormat := by
        obtain ⟨h1, h2⟩ := hc
        cases f
        simp_all [preferredSurfaceFormat]
      rw [← hfp]
      exact List.mem_cons_self f rest
    rw [if_neg hf]
    exact ih (fun hm => h (List.mem_cons_of_mem f hm))

/-- C5 (amended): for every surface capability report whose
`minImageCount` increment does not overflow `uint32` (`minCount <
UINT32_MAX`), the swapchain image count requested by `createSwapChain`
equals `max(minCount+1, minCount)` capped at `maxCount` when `maxCount > 0`
(`maxCount = 0` means unbounded); in particular `min = 2, max = 0` yields a
request of `3` and `min = 3, max = 3` yields a request of `3`.  At the wrap
point `minCount = UINT32_MAX` the `uint32` increment wraps and the program
requests `0` instead. -/
theorem image_count_formula (minCount maxCount : Nat)
    (hlt : minCount < UINT32_MAX) :
    requestedImageCount minCount maxCount =
      (if 0 < maxCount then min (max (minCount + 1) minCount) maxCount
       else max (minCount + 1) minCount) ∧
    requestedImageCount 2 0 = 3 ∧ requestedImageCount 3 3 = 3 ∧
    requestedImageCount UINT32_MAX 0 = 0 := by
  refine ⟨?_, by decide, by decide, by decide⟩
  have hmod : (minCount + 1) % 2 ^ 32 = minCount + 1 := by
    apply Nat.mod_eq_of_lt
    unfold UINT32_MAX at hlt
    omega
  simp only [requestedImageCount, hmod]
  split
  · rename_i h
    rw [if_pos h.1]
    omega
  · rename_i h
    by_cases h2 : 0 < maxCount
    · rw [if_pos h2]
      omega
    · rw [if_neg h2]
      omega

/-- C5 counterexample: at the surface capability report
`minImageCount = UINT32_MAX`, `maxImageCount = 0` (unbounded), the
`uint32` increment wraps and the program requests `0` images, while
`max(minCount+1, minCount)` — with the sum taken unbounded or wrapped —
is non-zero. -/
theorem image_count_wraps_at_uint32_max :
    requestedImageCount UINT32_MAX 0 = 0 ∧
    max (UINT32_MAX + 1) UINT32_MAX ≠ 0 ∧
    max ((UINT32_MAX + 1) % 2 ^ 32) UINT32_MAX ≠ 0 := by decide

/-- Witness for the amended C5 at `minCount = 2`, `maxCount = 0`. -/
theorem image_count_formula_witness :
    (2 : Nat) < UINT32_MAX ∧
    requestedImageCount 2 0 = 3 ∧
    requestedImageCount UINT32_MAX 0 = 0 :=
  ⟨by decide, (image_count_formula 2 0 (by decide)).2.1,
   (image_count_formula 2 0 (by decide)).2.2.2⟩

/-- C7: for every non-empty format list, if it contains the preferred
(format, color-space) pair then `chooseSwapSurfaceFormat` selects that
pair, and otherwise it selects the first listed format. -/
theorem surface_format_selection (fmts : List SurfaceFormat) (hne : fmts ≠ []) :
    (preferredSurfaceFormat ∈ fmts →
       chooseSwapSurfaceFormat fmts = some preferredSurfaceFormat) ∧
    (preferredSurfaceFormat ∉ fmts →
       chooseSwapSurfaceFormat fmts = some (fmts.head hne)) := by
  constructor
  · intro h
    unfold chooseSwapSurfaceFormat
    rw [findPreferredFormat_mem fmts h]
  · intro h
    unfold chooseSwapSurfaceFormat
    rw [findPreferredFormat_not_mem fmts h]
    exact List.head?_eq_head hne

/-- C6: for every well-formed surface capability report and every window
framebuffer size, the extent chosen at swapchain build/rebuild lies
componentwise between `minImageExtent` and `maxImageExtent`, and equals the
surface's `currentExtent` whenever that value is defined (not the sentinel
`UINT32_MAX`); the extent stored by `createSwapChain` and by
`recreateSwapChain` is exactly the chosen one. -/
theorem swapchain_extent_bounds (env : BuildEnv) (hwf : capsWellFormed env.caps) :
    (extentLE env.caps.minImageExtent (chooseSwapExtent env.caps env.fbSize) ∧
     extentLE (chooseSwapExtent env.caps env.fbSize) env.caps.maxImageExtent) ∧
    (env.caps.currentExtent.width ≠ UINT32_MAX →
       chooseSwapExtent env.caps env.fbSize = env.caps.currentExtent) ∧
    (∀ s s1, createSwapChain env s = some s1 →
       s1.swapChainExtent = chooseSwapExtent env.caps env.fbSize) ∧
    (∀ renv s s', renv.build = env → (recreateSwapChain renv s).2 = some s' →
       s'.swapChainExtent = chooseSwapExtent env.caps env.fbSize) := by
  obtain ⟨⟨hminw, hminh⟩, hcur⟩ := hwf
  refine ⟨?_, ?_, ?_, ?_⟩
  · unfold chooseSwapExtent
    by_cases hdef : env.caps.currentExtent.width ≠ UINT32_MAX
    · rw [if_pos hdef]
      exact hcur hdef
    · rw [if_neg hdef]
      exact ⟨⟨(cppClamp_bounds _ _ _ hminw).1, (cppClamp_bounds _ _ _ hminh).1⟩,
             ⟨(cppClamp_bounds _ _ _ hminw).2, (cppClamp_bounds _ _ _ hminh).2⟩⟩
  · intro hdef
    unfold chooseSwapExtent
    rw [if_pos hdef]
  · intro s s1 h
    obtain ⟨_, _, _, _, _, _, _, _, _, _, _, _, _, _, _, hext, _⟩ :=
      createSwapChain_fields env s s1 h
    exact hext
  · intro renv s s' hb h
    obtain ⟨_, _, _, _, _, _, _, _, _, _, _, _, _, _, _, hext, _⟩ :=
      recreateSwapChain_some renv s s' h
    rw [hb] at hext
    exact hext

/-- C3 (amended): `recordCommandBuffer` records exactly the fixed
eight-command sequence — begin recording, begin the render pass over the
full current extent with the fixed clear constant, bind the graphics
pipeline, set the dynamic viewport and scissor to the current extent, one
non-indexed draw of 3 vertices and 1 instance, end the render pass, end
recording — where the fixed clear constant is `(0, 0, 0, 0)` (black with
zero alpha, the alpha component being value-initialized), not opaque
black. -/
theorem record_command_sequence (extent : Extent) (imageIndex : Nat) :
    (recordCommandBuffer extent imageIndex).length = 8 ∧
    (recordCommandBuffer extent imageIndex)[0]? = some Cmd.beginBuffer ∧
    (recordCommandBuffer extent imageIndex)[1]? =
      some (Cmd.beginRenderPass imageIndex extent clearColor) ∧
    (recordCommandBuffer extent imageIndex)[2]? = some Cmd.bindGraphicsPipeline ∧
    (recordCommandBuffer extent imageIndex)[3]? =
      some (Cmd.setViewport extent.width extent.height) ∧
    (recordCommandBuffer extent imageIndex)[4]? = some (Cmd.setScissor extent) ∧
    (recordCommandBuffer extent imageIndex)[5]? = some (Cmd.draw 3 1 0 0 false) ∧
    (recordCommandBuffer extent imageIndex)[6]? = some Cmd.endRenderPass ∧
    (recordCommandBuffer extent imageIndex)[7]? = some Cmd.endBuffer ∧
    clearColor.r = 0 ∧ clearColor.g = 0 ∧ clearColor.b = 0 ∧ clearColor.a = 0 :=
  ⟨rfl, rfl, rfl, rfl, rfl, rfl, rfl, rfl, rfl, rfl, rfl, rfl, rfl⟩

/-- C3 counterexample: at extent 800×600 and image index 0, the render
pass is begun with the fixed clear constant, and that constant is not
opaque black — its alpha component is `0`, not `1`. -/
theorem record_clear_not_opaque :
    (recordCommandBuffer { width := 800, height := 600 } 0)[1]? =
      some (Cmd.beginRenderPass 0 { width := 800, height := 600 } clearColor) ∧
    clearColor ≠ specOpaqueBlack := by
  refine ⟨rfl, fun h => ?_⟩
  have ha : (0 : ℚ) = 1 := congrArg ClearColor.a h
  norm_num at ha

theorem recreateSwapChain_trace (renv : RecreateEnv) (s : RenderState) :
    (recreateSwapChain renv s).1 =
      Event.checkFramebufferSize renv.fbSize ::
        ((minimizeWait renv.fbSize renv.winSizes).1 ++
          (if (minimizeWait renv.fbSize renv.winSizes).2 then
            Event.deviceWaitIdle :: cleanupSwapChain ++
              (match createSwapChain renv.build s with
               | none => []
               | some _ =>
                 [Event.createdSwapChain, Event.createdImageViews,
                  Event.createdFramebuffers])
           else [])) := by
  unfold recreateSwapChain
  by_cases hb : (minimizeWait renv.fbSize renv.winSizes).2
  · simp only [hb, if_true]
    cases createSwapChain renv.build s <;> simp [cleanupSwapChain]
  · simp [hb]

theorem any_loop_false (m : List Event) (hm : ∀ e ∈ m, isWinLoopEvent e = true)
    (p : Event → Bool) (hq : ∀ w, p (Event.queryWindowSize w) = false)
    (hw : p Event.waitEvents = false) : m.any p = false := by
  simp only [List.any_eq_false]
  intro e he
  have hcl := hm e he
  cases e
  case queryWindowSize w => simp [hq w]
  case waitEvents => simp [hw]
  all_goals simp [isWinLoopEvent] at hcl

theorem recreate_no_slot_events (renv : RecreateEnv) (s : RenderState) :
    hasSubmitEvent (recreateSwapChain renv s).1 = false ∧
    hasResetFenceEvent (recreateSwapChain renv s).1 = false ∧
    hasPresentEvent (recreateSwapChain renv s).1 = false ∧
    hasAdvanceEvent (recreateSwapChain renv s).1 = false := by
  have hm := minimizeWait_events renv.winSizes renv.fbSize
  have h1 := any_loop_false _ hm isSubmitEvent (fun _ => rfl) rfl
  have h2 := any_loop_false _ hm isResetFenceEvent (fun _ => rfl) rfl
  have h3 := any_loop_false _ hm isPresentEvent (fun _ => rfl) rfl
  have h4 := any_loop_false _ hm isAdvanceEvent (fun _ => rfl) rfl
  rw [recreateSwapChain_trace renv s]
  unfold hasSubmitEvent hasResetFenceEvent hasPresentEvent hasAdvanceEvent
  by_cases hb : (minimizeWait renv.fbSize renv.winSizes).2 <;>
    cases hc : createSwapChain renv.build s <;>
      simp [hb, hc, h1, h2, h3, h4, cleanupSwapChain, isSubmitEvent, isResetFenceEvent,
        isPresentEvent, isAdvanceEvent]

theorem recreate_enters (renv : RecreateEnv) (s : RenderState) :
    entersRecreate (recreateSwapChain renv s).1 = true := by
  rw [recreateSwapChain_trace renv s]
  simp [entersRecreate, isCheckFbEvent]

theorem recreate_some_created (renv : RecreateEnv) (s s' : RenderState)
    (h : (recreateSwapChain renv s).2 = some s') :
    hasCreatedSwapChain (recreateSwapChain renv s).1 = true := by
  rw [recreateSwapChain_trace renv s]
  unfold recreateSwapChain at h
  by_cases hb : (minimizeWait renv.fbSize renv.winSizes).2
  · cases hc : createSwapChain renv.build s with
    | none => simp [hb, hc] at h
    | some s1 =>
      simp [hb, hc, hasCreatedSwapChain, cleanupSwapChain, isCreatedSwapChainEvent]
  · simp [hb] at h

/-- Witness for C7: with the preferred pair second in a two-element list,
selection picks the preferred pair. -/
theorem surface_format_selection_witness :
    ([{ format := 44, colorSpace := 0 }, { format := 50, colorSpace := 0 }] :
        List SurfaceFormat) ≠ [] ∧
    chooseSwapSurfaceFormat
        [{ format := 44, colorSpace := 0 }, { format := 50, colorSpace := 0 }] =
      some preferredSurfaceFormat :=
  ⟨by decide, (surface_format_selection _ (by decide)).1 (by decide)⟩

/-- Witness for C6 at the concrete well-formed capabilities `sampleCaps`
(defined current extent 800×600, extent range 1×1 .. 4096×4096). -/
theorem swapchain_extent_bounds_witness :
    (extentLE sampleBuild.caps.minImageExtent
        (chooseSwapExtent sampleBuild.caps sampleBuild.fbSize) ∧
     extentLE (chooseSwapExtent sampleBuild.caps sampleBuild.fbSize)
        sampleBuild.caps.maxImageExtent) ∧
    chooseSwapExtent sampleBuild.caps sampleBuild.fbSize =
      sampleBuild.caps.currentExtent :=
  ⟨(swapchain_extent_bounds sampleBuild (by decide)).1,
   (swapchain_extent_bounds sampleBuild (by decide)).2.1 (by decide)⟩

/-- C2: whenever acquisition reports out-of-date, the iteration performs no
queue submission, does not reset the slot fence (the fence-signaled flags
are unchanged in any completing run), never throws, enters swapchain
recreation immediately, and any completing run leaves the frame cursor
unchanged and has rebuilt the swapchain. -/
theorem acquire_out_of_date_recovery (env : DrawEnv) (s : RenderState)
    (h : env.acquire = AcquireResult.outOfDate) :
    hasSubmitEvent (drawFrame env s).1 = false ∧
    hasResetFenceEvent (drawFrame env s).1 = false ∧
    outcomeIsFatal (drawFrame env s).2 = false ∧
    entersRecreate (drawFrame env s).1 = true ∧
    (outcomeCursor (drawFrame env s).2 = none ∨
     outcomeCursor (drawFrame env s).2 = some s.currentFrame) ∧
    (outcomeFences (drawFrame env s).2 = none ∨
     outcomeFences (drawFrame env s).2 = some s.fenceSignaled) ∧
    (outcomeIsOk (drawFrame env s).2 = false ∨
     hasCreatedSwapChain (drawFrame env s).1 = true) := by
  obtain ⟨e1, e2, e3, e4⟩ := recreate_no_slot_events env.recreate s
  simp only [hasSubmitEvent, hasResetFenceEvent] at e1 e2
  have henters := recreate_enters env.recreate s
  simp only [entersRecreate] at henters
  simp only [drawFrame, h]
  cases hr : (recreateSwapChain env.recreate s).2 with
  | none =>
    simp [hasSubmitEvent, hasResetFenceEvent, entersRecreate, outcomeIsFatal,
      outcomeCursor, outcomeFences, outcomeIsOk, List.any_append, e1, e2, henters,
      isSubmitEvent, isResetFenceEvent, isCheckFbEvent]
  | some s1 =>
    obtain ⟨_, _, _, _, _, _, _, _, _, _, hfsig, _, hcf, _, _, _, _⟩ :=
      recreateSwapChain_some env.recreate s s1 hr
    have hcreated := recreate_some_created env.recreate s s1 hr
    simp only [hasCreatedSwapChain] at hcreated
    simp [hasSubmitEvent, hasResetFenceEvent, entersRecreate, outcomeIsFatal,
      outcomeCursor, outcomeFences, outcomeIsOk, hasCreatedSwapChain, List.any_append,
      e1, e2, henters, hcreated, hfsig, hcf,
      isSubmitEvent, isResetFenceEvent, isCheckFbEvent]

/-- Witness for C2 at the concrete environment `acquireOutOfDateEnv` and
the initialized state. -/
theorem acquire_out_of_date_recovery_witness :
    hasSubmitEvent (drawFrame acquireOutOfDateEnv initState).1 = false ∧
    hasResetFenceEvent (drawFrame acquireOutOfDateEnv initState).1 = false ∧
    outcomeIsFatal (drawFrame acquireOutOfDateEnv initState).2 = false ∧
    entersRecreate (drawFrame acquireOutOfDateEnv initState).1 = true ∧
    (outcomeCursor (drawFrame acquireOutOfDateEnv initState).2 = none ∨
     outcomeCursor (drawFrame acquireOutOfDateEnv initState).2 =
       some initState.currentFrame) ∧
    (outcomeFences (drawFrame acquireOutOfDateEnv initState).2 = none ∨
     outcomeFences (drawFrame acquireOutOfDateEnv initState).2 =
       some initState.fenceSignaled) ∧
    (outcomeIsOk (drawFrame acquireOutOfDateEnv initState).2 = false ∨
     hasCreatedSwapChain (drawFrame acquireOutOfDateEnv initState).1 = true) :=
  acquire_out_of_date_recovery acquireOutOfDateEnv initState rfl

theorem drawFrameSubmit_cursor (env : DrawEnv) (s : RenderState) (i imageIndex : Nat)
    (evs : List Event) :
    outcomeIsOk (drawFrameSubmit env s i imageIndex evs).2 = true →
      outcomeCursor (drawFrameSubmit env s i imageIndex evs).2 =
        some ((s.currentFrame + 1) % MAX_FRAMES_IN_FLIGHT) ∧
      hasAdvanceEvent (drawFrameSubmit env s i imageIndex evs).1 = true := by
  intro hok
  simp only [drawFrameSubmit] at hok ⊢
  by_cases hsub : env.submitOk
  · simp only [hsub, if_true] at hok ⊢
    by_cases hinv : env.presentRes = PresentResult.outOfDate ∨
        env.presentRes = PresentResult.suboptimal ∨ s.framebufferResized = true
    · simp only [hinv, if_pos] at hok ⊢
      cases hr : (recreateSwapChain env.recreate
          { s with
            fenceSignaled := (s.fenceSignaled.set i false).set i true,
            framebufferResized := false }).2 with
      | none => rw [hr] at hok; simp [outcomeIsOk] at hok
      | some s4 =>
        obtain ⟨_, _, _, _, _, _, _, _, _, _, _, _, hcf, _, _, _, _⟩ :=
          recreateSwapChain_some _ _ _ hr
        simp [outcomeCursor, hasAdvanceEvent, List.any_append, isAdvanceEvent, hcf]
    · simp only [hinv, if_neg, if_false] at hok ⊢
      by_cases hping : env.presentRes ≠ PresentResult.success
      · simp [hping, outcomeIsOk] at hok
      · simp [hping, outcomeCursor, hasAdvanceEvent, List.any_append, isAdvanceEvent]
  · simp [hsub, outcomeIsOk] at hok

/-- C1 (amended): the frame cursor advances by `(currentFrame + 1) mod
MAX_FRAMES_IN_FLIGHT` on every iteration that completes normally after
reaching the submit/present path — including iterations whose present call
reports out-of-date or suboptimal or finds the resize flag set, where
invalidation handling runs and the cursor still advances afterwards; the
cursor is left unchanged only on the acquire-out-of-date path (that frame
is not counted). -/
theorem cursor_advance_rule (env : DrawEnv) (s : RenderState) :
    (env.acquire = AcquireResult.outOfDate →
       (outcomeCursor (drawFrame env s).2 = none ∨
        outcomeCursor (drawFrame env s).2 = some s.currentFrame) ∧
       hasAdvanceEvent (drawFrame env s).1 = false) ∧
    (env.acquire ≠ AcquireResult.outOfDate →
       outcomeIsOk (drawFrame env s).2 = true →
       outcomeCursor (drawFrame env s).2 =
         some ((s.currentFrame + 1) % MAX_FRAMES_IN_FLIGHT) ∧
       hasAdvanceEvent (drawFrame env s).1 = true) := by
  constructor
  · intro h
    obtain ⟨_, _, _, e4⟩ := recreate_no_slot_events env.recreate s
    simp only [hasAdvanceEvent] at e4
    simp only [drawFrame, h]
    cases hr : (recreateSwapChain env.recreate s).2 with
    | none => simp [outcomeCursor, hasAdvanceEvent, List.any_append, e4, isAdvanceEvent]
    | some s1 =>
      obtain ⟨_, _, _, _, _, _, _, _, _, _, _, _, hcf, _, _, _, _⟩ :=
        recreateSwapChain_some env.recreate s s1 hr
      simp [outcomeCursor, hasAdvanceEvent, List.any_append, e4, isAdvanceEvent, hcf]
  · intro h hok
    cases ha : env.acquire with
    | outOfDate => exact absurd ha h
    | errorOther =>
      rw [ha] at h
      simp only [drawFrame, ha] at hok
      simp [outcomeIsOk] at hok
    | success idx =>
      simp only [drawFrame, ha] at hok ⊢
      exact drawFrameSubmit_cursor env s s.currentFrame idx _ hok
    | suboptimal idx =>
      simp only [drawFrame, ha] at hok ⊢
      exact drawFrameSubmit_cursor env s s.currentFrame idx _ hok

/-- C1 counterexample: with acquisition succeeding and the present call
reporting out-of-date — a failed, invalidated present — the iteration runs
invalidation handling and still advances the cursor from 0 to 1, so the
aborted frame is counted. -/
theorem cursor_advances_after_invalidated_present :
    presentOutOfDateEnv.presentRes = PresentResult.outOfDate ∧
    entersRecreate (drawFrame presentOutOfDateEnv initState).1 = true ∧
    outcomeCursor (drawFrame presentOutOfDateEnv initState).2 = some 1 ∧
    initState.currentFrame = 0 := by decide

/-- Witness for the amended C1 at a fully successful concrete iteration. -/
theorem cursor_advance_rule_witness :
    outcomeCursor (drawFrame cleanFrameEnv initState).2 =
      some ((initState.currentFrame + 1) % MAX_FRAMES_IN_FLIGHT) ∧
    hasAdvanceEvent (drawFrame cleanFrameEnv initState).1 = true :=
  (cursor_advance_rule cleanFrameEnv initState).2 (by decide) (by decide)

theorem recreate_checkFb_mem (renv : RecreateEnv) (s : RenderState) :
    Event.checkFramebufferSize renv.fbSize ∈ (recreateSwapChain renv s).1 := by
  rw [recreateSwapChain_trace renv s]
  exact List.mem_cons_self _ _

theorem drawFrameSubmit_trace (env : DrawEnv) (s : RenderState) (i imageIndex : Nat)
    (evs : List Event) (hsub : env.submitOk = true)
    (hevs : entersRecreate evs = false) :
    hasSubmitEvent (drawFrameSubmit env s i imageIndex evs).1 = true ∧
    hasPresentEvent (drawFrameSubmit env s i imageIndex evs).1 = true ∧
    (entersRecreate (drawFrameSubmit env s i imageIndex evs).1 = true ↔
      (env.presentRes = PresentResult.outOfDate ∨
       env.presentRes = PresentResult.suboptimal ∨ s.framebufferResized = true)) := by
  simp only [entersRecreate] at hevs
  simp only [drawFrameSubmit, hsub, if_true]
  by_cases hinv : env.presentRes = PresentResult.outOfDate ∨
      env.presentRes = PresentResult.suboptimal ∨ s.framebufferResized = true
  · simp only [hinv, if_pos]
    cases hr : (recreateSwapChain env.recreate
        { s with
          fenceSignaled := (s.fenceSignaled.set i false).set i true,
          framebufferResized := false }).2 with
    | none =>
      refine ⟨?_, ?_, ?_⟩ <;>
        simp [hasSubmitEvent, hasPresentEvent, entersRecreate, List.any_append,
          isSubmitEvent, isPresentEvent, isCheckFbEvent, hinv, hevs]
      exact ⟨Event.checkFramebufferSize env.recreate.fbSize,
        recreate_checkFb_mem env.recreate _, rfl⟩
    | some s4 =>
      refine ⟨?_, ?_, ?_⟩ <;>
        simp [hasSubmitEvent, hasPresentEvent, entersRecreate, List.any_append,
          isSubmitEvent, isPresentEvent, isCheckFbEvent, hinv, hevs]
      exact ⟨Event.checkFramebufferSize env.recreate.fbSize,
        recreate_checkFb_mem env.recreate _, rfl⟩
  · simp only [hinv, if_neg, if_false]
    by_cases hp : env.presentRes ≠ PresentResult.success
    · simp [hp, hasSubmitEvent, hasPresentEvent, entersRecreate, List.any_append,
        isSubmitEvent, isPresentEvent, isCheckFbEvent, hevs, hinv]
    · simp [hp, hasSubmitEvent, hasPresentEvent, entersRecreate, List.any_append,
        isSubmitEvent, isPresentEvent, isCheckFbEvent, hevs, hinv]

/-- C4 (amended): when acquisition reports suboptimal (and the driver
accepts the submission), the iteration proceeds normally — it submits and
presents — but the suboptimal acquire result itself is discarded: a
swapchain rebuild after presenting happens if and only if the present call
itself reports out-of-date or suboptimal or the resize flag is set, not
because acquisition was suboptimal. -/
theorem acquire_suboptimal_discarded (env : DrawEnv) (s : RenderState) (idx : Nat)
    (hacq : env.acquire = AcquireResult.suboptimal idx) (hsub : env.submitOk = true) :
    hasSubmitEvent (drawFrame env s).1 = true ∧
    hasPresentEvent (drawFrame env s).1 = true ∧
    (entersRecreate (drawFrame env s).1 = true ↔
      (env.presentRes = PresentResult.outOfDate ∨
       env.presentRes = PresentResult.suboptimal ∨ s.framebufferResized = true)) := by
  simp only [drawFrame, hacq]
  exact drawFrameSubmit_trace env s s.currentFrame idx _ hsub rfl

/-- C4 counterexample: acquisition reports suboptimal, submission and
present succeed, the resize flag is clear — the frame completes normally
and no rebuild is triggered, so nothing was "remembered". -/
theorem acquire_suboptimal_no_rebuild :
    acquireSuboptimalEnv.acquire = AcquireResult.suboptimal 0 ∧
    hasSubmitEvent (drawFrame acquireSuboptimalEnv initState).1 = true ∧
    hasPresentEvent (drawFrame acquireSuboptimalEnv initState).1 = true ∧
    outcomeIsOk (drawFrame acquireSuboptimalEnv initState).2 = true ∧
    entersRecreate (drawFrame acquireSuboptimalEnv initState).1 = false := by decide

/-- Witness for the amended C4: acquire suboptimal with present reporting
out-of-date does submit, present and rebuild. -/
theorem acquire_suboptimal_discarded_witness :
    hasSubmitEvent (drawFrame acquireSuboptimalPresentOodEnv initState).1 = true ∧
    hasPresentEvent (drawFrame acquireSuboptimalPresentOodEnv initState).1 = true ∧
    entersRecreate (drawFrame acquireSuboptimalPresentOodEnv initState).1 = true := by
  have h := acquire_suboptimal_discarded acquireSuboptimalPresentOodEnv initState 0 rfl rfl
  exact ⟨h.1, h.2.1, h.2.2.mpr (Or.inl rfl)⟩

theorem createSwapChain_isSome (env : BuildEnv) (s : RenderState)
    (hne : env.formats ≠ []) : (createSwapChain env s).isSome = true := by
  unfold createSwapChain
  cases hf : chooseSwapSurfaceFormat env.formats with
  | some sf => simp
  | none =>
    exfalso
    unfold chooseSwapSurfaceFormat at hf
    cases hp : findPreferredFormat env.formats with
    | some f => rw [hp] at hf; simp at hf
    | none =>
      rw [hp] at hf
      exact hne (List.head?_eq_none_iff.mp hf)

theorem recreateSwapChain_isSome (renv : RecreateEnv) (s : RenderState)
    (hne : renv.build.formats ≠ []) :
    (recreateSwapChain renv s).2.isSome = (minimizeWait renv.fbSize renv.winSizes).2 := by
  unfold recreateSwapChain
  by_cases hb : (minimizeWait renv.fbSize renv.winSizes).2
  · have hcs := createSwapChain_isSome renv.build s hne
    cases hc : createSwapChain renv.build s with
    | none => rw [hc] at hcs; simp at hcs
    | some s1 => simp [hb]
  · simp [hb]

theorem recreate_finished_idle (renv : RecreateEnv) (s : RenderState)
    (hb : (minimizeWait renv.fbSize renv.winSizes).2 = true) :
    hasDeviceWaitIdle (recreateSwapChain renv s).1 = true := by
  rw [recreateSwapChain_trace renv s, hb, if_pos rfl]
  cases createSwapChain renv.build s <;>
    simp [hasDeviceWaitIdle, cleanupSwapChain, isDeviceWaitIdleEvent, List.any_append]

theorem recreate_afterIdle (renv : RecreateEnv) (s : RenderState)
    (hb : (minimizeWait renv.fbSize renv.winSizes).2 = true) :
    afterIdle (recreateSwapChain renv s).1 =
      Event.deviceWaitIdle :: cleanupSwapChain ++
        (match createSwapChain renv.build s with
         | none => []
         | some _ => [Event.createdSwapChain, Event.createdImageViews,
                      Event.createdFramebuffers]) := by
  rw [recreateSwapChain_trace renv s, hb, if_pos rfl]
  unfold afterIdle
  have hall : ∀ e ∈ Event.checkFramebufferSize renv.fbSize ::
      (minimizeWait renv.fbSize renv.winSizes).1, (!isDeviceWaitIdleEvent e) = true := by
    intro e he
    rcases List.mem_cons.mp he with heq | hm
    · subst heq; rfl
    · have hl := minimizeWait_events renv.winSizes renv.fbSize e hm
      cases e <;> simp_all [isWinLoopEvent, isDeviceWaitIdleEvent]
  rw [← List.cons_append]
  rw [dropWhile_eq_of_all _ _ hall]
  simp [List.dropWhile_cons, isDeviceWaitIdleEvent]

/-- C8 (amended): when invalidation handling starts with framebuffer size
(0,0), the rebuild blocks until a non-zero *window* size is observed — the
initial check reads the framebuffer size, but each blocking iteration
re-reads `glfwGetWindowSize` — and only then proceeds to wait for device
idle, tear down, and rebuild.  The call completes exactly when the stream
of window-size observations contains a fully non-zero size. -/
theorem minimized_rebuild_blocks (renv : RecreateEnv) (s : RenderState)
    (hzero : renv.fbSize.width = 0 ∨ renv.fbSize.height = 0)
    (hfmts : renv.build.formats ≠ []) :
    ((recreateSwapChain renv s).2.isSome = true ↔
       renv.winSizes.any nonzeroExtent = true) ∧
    ((recreateSwapChain renv s).2.isSome = true →
       (winObservations (recreateSwapChain renv s).1).any nonzeroExtent = true ∧
       hasDeviceWaitIdle (recreateSwapChain renv s).1 = true ∧
       afterIdle (recreateSwapChain renv s).1 =
         Event.deviceWaitIdle :: cleanupSwapChain ++
           [Event.createdSwapChain, Event.createdImageViews,
            Event.createdFramebuffers]) := by
  have hiff := recreateSwapChain_isSome renv s hfmts
  constructor
  · rw [hiff, minimizeWait_finished renv.winSizes renv.fbSize hzero]
  · intro hsome
    have hb : (minimizeWait renv.fbSize renv.winSizes).2 = true := by
      rw [← hiff]; exact hsome
    refine ⟨?_, recreate_finished_idle renv s hb, ?_⟩
    · have hobs := minimizeWait_observed renv.winSizes renv.fbSize hzero hb
      simp only [winObservations] at hobs
      rw [recreateSwapChain_trace renv s, hb, if_pos rfl]
      cases createSwapChain renv.build s <;>
        simpa [winObservations, List.filterMap_append, cleanupSwapChain,
          List.any_append] using hobs
    · rw [recreate_afterIdle renv s hb]
      have hcs : (createSwapChain renv.build s).isSome = true :=
        createSwapChain_isSome renv.build s hfmts
      cases hc : createSwapChain renv.build s with
      | none => rw [hc] at hcs; simp at hcs
      | some s1 => rfl

/-- C8 counterexample: entering recreation minimized with the window-size
stream `[(800,600)]`, the rebuild proceeds all the way to device-wait-idle
although every framebuffer-size observation made during the call is (0,0):
the loop re-reads the window size, not the framebuffer size. -/
theorem minimized_rebuild_ignores_framebuffer_size :
    (recreateSwapChain minimizedRecreate baseState).2.isSome = true ∧
    hasDeviceWaitIdle (recreateSwapChain minimizedRecreate baseState).1 = true ∧
    (fbObservations (recreateSwapChain minimizedRecreate baseState).1).all
      (fun e => !nonzeroExtent e) = true := by decide

/-- Witness for the amended C8: minimized entry, one zero window-size
observation, then a non-zero one — the call completes, a non-zero window
size was observed, and device-wait-idle was reached. -/
theorem minimized_rebuild_blocks_witness :
    (recreateSwapChain minimizedTwoStepRecreate baseState).2.isSome = true ∧
    (winObservations (recreateSwapChain minimizedTwoStepRecreate baseState).1).any
      nonzeroExtent = true ∧
    hasDeviceWaitIdle (recreateSwapChain minimizedTwoStepRecreate baseState).1 = true := by
  have h := minimized_rebuild_blocks minimizedTwoStepRecreate baseState
    (by decide) (by decide)
  have hs : (recreateSwapChain minimizedTwoStepRecreate baseState).2.isSome = true :=
    h.1.mpr (by decide)
  exact ⟨hs, (h.2 hs).1, (h.2 hs).2.1⟩

/-- C9: a swapchain rebuild replaces only the swapchain (the handle is
fresh, hence different), its images, image views, framebuffers, format and
extent; the device, the two queues, the render pass, the pipeline and its
layout, the command pool, the command buffers, and all per-slot fences and
semaphores survive unchanged, as do the frame cursor and the resize flag. -/
theorem recreate_preserves_device_objects (renv : RecreateEnv) (s s' : RenderState)
    (h : (recreateSwapChain renv s).2 = some s')
    (hfresh : s.swapChain < s.nextHandle) :
    s'.device = s.device ∧ s'.graphicsQueue = s.graphicsQueue ∧
    s'.presentQueue = s.presentQueue ∧ s'.renderPass = s.renderPass ∧
    s'.pipelineLayout = s.pipelineLayout ∧ s'.graphicsPipeline = s.graphicsPipeline ∧
    s'.commandPool = s.commandPool ∧ s'.commandBuffers = s.commandBuffers ∧
    s'.imageAvailableSemaphores = s.imageAvailableSemaphores ∧
    s'.renderFinishedSemaphores = s.renderFinishedSemaphores ∧
    s'.inFlightFences = s.inFlightFences ∧ s'.fenceSignaled = s.fenceSignaled ∧
    s'.currentFrame = s.currentFrame ∧ s'.framebufferResized = s.framebufferResized ∧
    s'.swapChain ≠ s.swapChain ∧
    s'.swapChainExtent = chooseSwapExtent renv.build.caps renv.build.fbSize := by
  obtain ⟨h1, h2, h3, h4, h5, h6, h7, h8, h9, h10, h11, h12, h13, h14, h15, h16, _⟩ :=
    recreateSwapChain_some renv s s' h
  exact ⟨h1, h2, h3, h4, h5, h6, h7, h12, h8, h9, h10, h11, h13, h14,
    by rw [h15]; omega, h16⟩

/-- Witness for C9 at the concrete rebuild of `baseState` under
`sampleRecreate`. -/
theorem recreate_preserves_device_objects_witness :
    ((recreateSwapChain sampleRecreate baseState).2.getD baseState).device =
      baseState.device ∧
    ((recreateSwapChain sampleRecreate baseState).2.getD baseState).graphicsQueue =
      baseState.graphicsQueue ∧
    ((recreateSwapChain sampleRecreate baseState).2.getD baseState).presentQueue =
      baseState.presentQueue ∧
    ((recreateSwapChain sampleRecreate baseState).2.getD baseState).renderPass =
      baseState.renderPass ∧
    ((recreateSwapChain sampleRecreate baseState).2.getD baseState).pipelineLayout =
      baseState.pipelineLayout ∧
    ((recreateSwapChain sampleRecreate baseState).2.getD baseState).graphicsPipeline =
      baseState.graphicsPipeline ∧
    ((recreateSwapChain sampleRecreate baseState).2.getD baseState).commandPool =
      baseState.commandPool ∧
    ((recreateSwapChain sampleRecreate baseState).2.getD baseState).commandBuffers =
      baseState.commandBuffers ∧
    ((recreateSwapChain sampleRecreate baseState).2.getD baseState).imageAvailableSemaphores =
      baseState.imageAvailableSemaphores ∧
    ((recreateSwapChain sampleRecreate baseState).2.getD baseState).renderFinishedSemaphores =
      baseState.renderFinishedSemaphores ∧
    ((recreateSwapChain sampleRecreate baseState).2.getD baseState).inFlightFences =
      baseState.inFlightFences ∧
    ((recreateSwapChain sampleRecreate baseState).2.getD baseState).fenceSignaled =
      baseState.fenceSignaled ∧
    ((recreateSwapChain sampleRecreate baseState).2.getD baseState).currentFrame =
      baseState.currentFrame ∧
    ((recreateSwapChain sampleRecreate baseState).2.getD baseState).framebufferResized =
      baseState.framebufferResized ∧
    ((recreateSwapChain sampleRecreate baseState).2.getD baseState).swapChain ≠
      baseState.swapChain ∧
    ((recreateSwapChain sampleRecreate baseState).2.getD baseState).swapChainExtent =
      chooseSwapExtent sampleRecreate.build.caps sampleRecreate.build.fbSize :=
  recreate_preserves_device_objects sampleRecreate baseState
    ((recreateSwapChain sampleRecreate baseState).2.getD baseState)
    (by decide) (by decide)

theorem drawFrameSubmit_invariant (env : DrawEnv) (s : RenderState) (i imageIndex : Nat)
    (evs : List Event) (hinv : slotInvariant s) :
    invariantOutcome (drawFrameSubmit env s i imageIndex evs).2 := by
  obtain ⟨hcf, hias, hrfs, hiff, hfsig, hcb⟩ := hinv
  simp only [drawFrameSubmit]
  by_cases hsub : env.submitOk
  · simp only [hsub, if_true]
    by_cases hiv : env.presentRes = PresentResult.outOfDate ∨
        env.presentRes = PresentResult.suboptimal ∨ s.framebufferResized = true
    · simp only [hiv, if_pos]
      cases hr : (recreateSwapChain env.recreate
          { s with
            fenceSignaled := (s.fenceSignaled.set i false).set i true,
            framebufferResized := false }).2 with
      | none => simp [invariantOutcome]
      | some s4 =>
        obtain ⟨_, _, _, _, _, _, _, p8, p9, p10, p11, _, p13, _, _, _, _⟩ :=
          recreateSwapChain_some _ _ _ hr
        obtain ⟨_, _, _, _, _, _, _, _, _, _, _, p12, _, _, _, _, _⟩ :=
          recreateSwapChain_some _ _ _ hr
        simp [invariantOutcome, slotInvariant, p8, p9, p10, p11, p12, p13,
          hias, hrfs, hiff, hfsig, hcb, MAX_FRAMES_IN_FLIGHT]
        omega
    · simp only [hiv, if_neg, if_false]
      by_cases hp : env.presentRes ≠ PresentResult.success
      · simp [hp, invariantOutcome]
      · simp [hp, invariantOutcome, slotInvariant, hias, hrfs, hiff, hfsig, hcb,
          MAX_FRAMES_IN_FLIGHT]
        omega
  · simp [hsub, invariantOutcome]

/-- C10: after initialization the per-slot arrays of image-available
semaphores, render-finished semaphores, fences (and their signaled flags)
and command buffers all have length `MAX_FRAMES_IN_FLIGHT = 2` and the
cursor is `0 < 2`; every iteration of the frame loop that produces a state
preserves this invariant; and under the invariant the per-slot index
`currentFrame` is in bounds for every per-slot array accessed in
`drawFrame`. -/
theorem frame_slot_invariant :
    (∀ s, s.currentFrame = 0 →
       slotInvariant (createCommandBuffers (createSyncObjects s))) ∧
    (∀ env s, slotInvariant s → invariantOutcome (drawFrame env s).2) ∧
    (∀ s, slotInvariant s →
       s.currentFrame < s.imageAvailableSemaphores.length ∧
       s.currentFrame < s.renderFinishedSemaphores.length ∧
       s.currentFrame < s.inFlightFences.length ∧
       s.currentFrame < s.fenceSignaled.length ∧
       s.currentFrame < s.commandBuffers.length) := by
  refine ⟨?_, ?_, ?_⟩
  · intro s h0
    unfold slotInvariant createCommandBuffers createSyncObjects
    simp [h0, MAX_FRAMES_IN_FLIGHT]
  · intro env s hinv
    obtain ⟨hcf, hias, hrfs, hiff, hfsig, hcb⟩ := hinv
    cases ha : env.acquire with
    | outOfDate =>
      simp only [drawFrame, ha]
      cases hr : (recreateSwapChain env.recreate s).2 with
      | none => simp [invariantOutcome]
      | some s1 =>
        obtain ⟨_, _, _, _, _, _, _, p8, p9, p10, p11, p12, p13, _, _, _, _⟩ :=
          recreateSwapChain_some env.recreate s s1 hr
        simp [invariantOutcome, slotInvariant, p8, p9, p10, p11, p12, p13,
          hcf, hias, hrfs, hiff, hfsig, hcb]
    | errorOther => simp [drawFrame, ha, invariantOutcome]
    | success idx =>
      simp only [drawFrame, ha]
      exact drawFrameSubmit_invariant env s s.currentFrame idx _
        ⟨hcf, hias, hrfs, hiff, hfsig, hcb⟩
    | suboptimal idx =>
      simp only [drawFrame, ha]
      exact drawFrameSubmit_invariant env s s.currentFrame idx _
        ⟨hcf, hias, hrfs, hiff, hfsig, hcb⟩
  · intro s hinv
    obtain ⟨hcf, hias, hrfs, hiff, hfsig, hcb⟩ := hinv
    rw [hias, hrfs, hiff, hfsig, hcb]
    exact ⟨hcf, hcf, hcf, hcf, hcf⟩

/-- Witness for C10 at the concrete initialized state and a fully
successful iteration. -/
theorem frame_slot_invariant_witness :
    slotInvariant initState ∧ invariantOutcome (drawFrame cleanFrameEnv initState).2 :=
  ⟨frame_slot_invariant.1 baseState rfl,
   frame_slot_invariant.2.1 cleanFrameEnv initState (frame_slot_invariant.1 baseState rfl)⟩
